/-
  Verification of the xmonitor uptime-monitoring daemon (src/main.ts).

  Shallow embedding: the per-check pipeline `checkOnce`, the recurrence
  builder `buildRule`, and the startup registration loop of `main` are
  translated into pure Lean functions.  External I/O leaves (axios probe,
  SES delivery, fs append, console, Date formatting) are modelled as
  parameters or as events recorded in a trace, in the order the source
  performs them.
-/
import Mathlib

namespace XMonitor

/-- A monitor target, from the `MonitorConfig` interface of main.ts
(`label`, `url`, `emails`, `interval` in milliseconds). -/
structure MonitorConfig where
  label : String
  url : String
  emails : List String
  interval : Nat
deriving DecidableEq, Repr

/-- Result of one axios probe, as discriminated by the try/catch in
`checkOnce` (main.ts lines 70-82): the request resolved with a status,
or it threw with `e.response` present (HTTP error response), or it threw
with no response (network / connection-level failure carrying `e.message`). -/
inductive ProbeResult where
  | success (status : Nat)
  | httpError (status : Nat)
  | connFailure (msg : String)
deriving DecidableEq, Repr

/-- The classified outcome of one check: the local variables `statusCode`,
`errorMsg`, `isConnectionError` of `checkOnce` together with the measured
duration and the derived `up` flag (spec §3 `CheckOutcome`). -/
structure CheckOutcome where
  statusCode : Option Nat
  errorMessage : Option String
  responseTimeMs : Nat
  isConnectionFailure : Bool
  up : Bool
deriving DecidableEq, Repr

/-- `statusCode` after the try/catch of main.ts lines 70-82: the response
status when a response was received (either branch), `null` otherwise. -/
def statusCodeOf : ProbeResult → Option Nat
  | .success s => some s
  | .httpError s => some s
  | .connFailure _ => none

/-- `errorMsg` after the try/catch: the exception message only on a
network error (no response). -/
def errorMsgOf : ProbeResult → Option String
  | .success _ => none
  | .httpError _ => none
  | .connFailure m => some m

/-- `isConnectionError` after the try/catch: set only when no response
was received. -/
def isConnectionErrorOf : ProbeResult → Bool
  | .success _ => false
  | .httpError _ => false
  | .connFailure _ => true

/-- main.ts lines 87-89: `isDowntime = isConnectionError || (statusCode !== null && statusCode >= 500)`. -/
def isDowntimeCalc (statusCode : Option Nat) (isConnectionError : Bool) : Bool :=
  isConnectionError ||
    (match statusCode with
     | some c => decide (500 ≤ c)
     | none => false)

/-- The outcome-classification part of `checkOnce` (main.ts lines 64-91):
from the probe result and the measured duration, build the check outcome
with `up = !isDowntime`. -/
def classify (r : ProbeResult) (duration : Nat) : CheckOutcome :=
  let statusCode := statusCodeOf r
  let errorMsg := errorMsgOf r
  let isConnectionError := isConnectionErrorOf r
  let isDowntime := isDowntimeCalc statusCode isConnectionError
  { statusCode := statusCode
    errorMessage := errorMsg
    responseTimeMs := duration
    isConnectionFailure := isConnectionError
    up := !isDowntime }

/-- The structured record passed to `logLine` (main.ts lines 94-101):
timestamp (the ISO-8601 string produced by `new Date().toISOString()`),
url, statusCode, error, responseTimeMs, up. -/
structure LogRecord where
  timestamp : String
  url : String
  statusCode : Option Nat
  error : Option String
  responseTimeMs : Nat
  up : Bool
deriving DecidableEq, Repr

/-- The record `checkOnce` logs for an outcome (main.ts lines 94-101).
`ts` stands for the ISO-8601 timestamp string the runtime produced. -/
def mkLogRecord (cfg : MonitorConfig) (ts : String) (o : CheckOutcome) : LogRecord :=
  { timestamp := ts
    url := cfg.url
    statusCode := o.statusCode
    error := o.errorMessage
    responseTimeMs := o.responseTimeMs
    up := o.up }

/-- The notification kinds the state machine can request (spec §4.1:
DOWN alert, RECOVERY notice). -/
inductive NotifyKind where
  | downAlert
  | recovery
deriving DecidableEq, Repr

/-- The state-transition logic of the if-chain in `checkOnce`
(main.ts lines 104-131), extracted as a pure function on
(`state.lastUp`, `up`).  `none` is the initial `null` (spec status
Unknown), `some true` is Up, `some false` is Down.  Returns the new
`lastUp` together with the notification the branch sends. -/
def transitionStep : Option Bool → Bool → Option Bool × Option NotifyKind
  | none, up => (some up, none)
  | some last, up =>
    if last && !up then (some up, some .downAlert)
    else if !last && up then (some up, some .recovery)
    else (some up, none)

/-- The spec's §4.1 status names. -/
inductive Status where
  | unknown
  | up
  | down
deriving DecidableEq, Repr

/-- The correspondence between §4.1 statuses and the source's
`lastUp : boolean | null`. -/
def lastUpOf : Status → Option Bool
  | .unknown => none
  | .up => some true
  | .down => some false

section Rule

/-- One component of a node-schedule `RecurrenceRule`: unset (wildcard),
a specific value, or `new schedule.Range(start, stop, step)`. -/
inductive RuleField where
  | unset
  | val (n : Nat)
  | range (start stop step : Nat)
deriving DecidableEq, Repr

/-- The recurrence-rule components `buildRule` assigns
(main.ts lines 134-160); fields not assigned stay unset. -/
structure RecurrenceRule where
  second : RuleField := .unset
  minute : RuleField := .unset
  hour : RuleField := .unset
deriving DecidableEq, Repr

/-- main.ts lines 134-160: decompose the millisecond interval with
integer division (`Math.floor`) and pick the rule by the
seconds / minutes / hours / midnight-fallback precedence. -/
def buildRule (interval : Nat) : RecurrenceRule :=
  let sec := interval / 1000
  let min := sec / 60
  let hr := min / 60
  if sec < 60 then
    { second := .range 0 59 sec }
  else if sec % 60 = 0 ∧ min < 60 then
    { second := .val 0, minute := .range 0 59 min }
  else if min % 60 = 0 ∧ hr < 24 then
    { second := .val 0, minute := .val 0, hour := .range 0 23 hr }
  else
    { second := .val 0, minute := .val 0, hour := .val 0 }

/-- Whether a rule component matches a clock value, following the
matching semantics of the external node-schedule library: an unset
component is a wildcard, a specific value matches only itself, and a
range matches the values start, start+step, ... up to stop.  (buildRule
always sets `second`, so node-schedule's default there never applies.) -/
def fieldMatches : RuleField → Nat → Bool
  | .unset, _ => true
  | .val n, v => v == n
  | .range a b s, v => decide (a ≤ v) && decide (v ≤ b) && (v - a) % s == 0

/-- Whether a rule fires at clock position (hour, minute, second),
per the node-schedule matching semantics of `fieldMatches`. -/
def ruleFiresAt (r : RecurrenceRule) (h m s : Nat) : Bool :=
  fieldMatches r.hour h && fieldMatches r.minute m && fieldMatches r.second s

end Rule

section Cycle

/-- An observable side effect of one check cycle, in program order:
the axios GET, the `logLine` append, the `ses.send` attempt, a console
info line, the `console.error` diagnostic, and the `state.lastUp`
assignment. -/
inductive Event where
  | probe (url : String)
  | logAppend (label : String) (rec : LogRecord)
  | sesAttempt (dest : List String) (subject body : String)
  | consoleInfo (msg : String)
  | consoleError (msg : String)
  | stateWrite (newLastUp : Bool)
deriving DecidableEq, Repr

/-- `sendEmail` of main.ts lines 35-50: always attempts the SES send;
on success it logs an info line, and a delivery failure is caught inside
the function and logged with `console.error` — the function returns
normally either way (`delivered` stands for whether SES accepted). -/
def sendEmail (delivered : Bool) (dest : List String) (subject body : String) : List Event :=
  Event.sesAttempt dest subject body ::
    (if delivered then [Event.consoleInfo ("Sent: " ++ subject)]
     else [Event.consoleError "SES error"])

/-- The interpolated string `status ${statusCode}` where `statusCode`
may be `null`. -/
def statusText (statusCode : Option Nat) : String :=
  "status " ++ (match statusCode with | some c => toString c | none => "null")

/-- The DOWN-alert subject of main.ts line 114; `lts` is the local
timestamp string from `toLocaleString`. -/
def alertSubject (cfg : MonitorConfig) (lts : String) : String :=
  "[ALERT] " ++ cfg.label ++ " went DOWN (" ++ lts ++ ")"

/-- The DOWN-alert body of main.ts line 115: the error message, or
(when it is null or empty, the JS falsy cases of `||`) the status text. -/
def alertBody (cfg : MonitorConfig) (o : CheckOutcome) : String :=
  cfg.label ++ " (" ++ cfg.url ++ ") is now down: " ++
    (match o.errorMessage with
     | some m => if m = "" then statusText o.statusCode else m
     | none => statusText o.statusCode)

/-- The RECOVERY subject of main.ts line 123. -/
def recoverySubject (cfg : MonitorConfig) (lts : String) : String :=
  "[RECOVERY] " ++ cfg.label ++ " is UP (" ++ lts ++ ")"

/-- The RECOVERY body of main.ts line 124. -/
def recoveryBody (cfg : MonitorConfig) (o : CheckOutcome) : String :=
  cfg.label ++ " (" ++ cfg.url ++ ") has recovered (" ++ statusText o.statusCode ++ ")."

/-- The part of `checkOnce` after classification (main.ts lines 94-131),
over an arbitrary outcome: log the record, then run the if-chain on
(`state.lastUp`, `up`), producing the event trace and the new `lastUp`.
`ts` is the ISO timestamp, `lts` the local timestamp, `delivered`
whether an SES send would succeed. -/
def checkOnceCore (cfg : MonitorConfig) (lastUp : Option Bool) (o : CheckOutcome)
    (ts lts : String) (delivered : Bool) : List Event × Option Bool :=
  let pre := [Event.probe cfg.url, Event.logAppend cfg.label (mkLogRecord cfg ts o)]
  match lastUp with
  | none =>
    (pre ++ [Event.stateWrite o.up,
             Event.consoleInfo ("Initial check for " ++ cfg.label)], some o.up)
  | some last =>
    if last && !o.up then
      (pre ++ sendEmail delivered cfg.emails (alertSubject cfg lts) (alertBody cfg o)
           ++ [Event.stateWrite o.up], some o.up)
    else if !last && o.up then
      (pre ++ sendEmail delivered cfg.emails (recoverySubject cfg lts) (recoveryBody cfg o)
           ++ [Event.stateWrite o.up], some o.up)
    else
      (pre ++ [Event.stateWrite o.up], some o.up)

/-- One full check cycle `checkOnce(cfg, state)` (main.ts lines 64-132):
classify the probe result, then log, transition and notify.  Totality of
this function mirrors the source: every probe exception is caught by the
try/catch and every notifier failure inside `sendEmail`, so the cycle
always runs to completion. -/
def checkOnce (cfg : MonitorConfig) (lastUp : Option Bool) (r : ProbeResult)
    (duration : Nat) (ts lts : String) (delivered : Bool) : List Event × Option Bool :=
  checkOnceCore cfg lastUp (classify r duration) ts lts delivered

/-- Event classifiers used to state trace properties. -/
def isProbe : Event → Bool
  | .probe _ => true
  | _ => false

def isLogAppend : Event → Bool
  | .logAppend _ _ => true
  | _ => false

def isSes : Event → Bool
  | .sesAttempt _ _ _ => true
  | _ => false

def isStateWrite : Event → Bool
  | .stateWrite _ => true
  | _ => false

def isConsoleError : Event → Bool
  | .consoleError _ => true
  | _ => false

/-- The pipeline events of a cycle (probe, log append, SES attempt,
state write), dropping the console chatter. -/
def isCore (e : Event) : Bool :=
  isProbe e || isLogAppend e || isSes e || isStateWrite e

end Cycle

section Startup

/-- `monitors.set(key, value)` on the label-keyed map of main.ts
line 171/175: later sets overwrite earlier ones. -/
def mapSet (m : String → Option Nat) (k : String) (v : Nat) : String → Option Nat :=
  fun q => if q = k then some v else m q

/-- The `configs.forEach` registration loop of main.ts lines 173-184,
with each iteration's freshly created `MonitorState` object identified
by its creation index: record each label in the monitors map (later
duplicates overwrite). -/
def registerAll : List MonitorConfig → Nat → (String → Option Nat) → (String → Option Nat)
  | [], _, m => m
  | cfg :: rest, i, m => registerAll rest (i + 1) (mapSet m cfg.label i)

/-- The monitors map after startup (main.ts lines 171-184). -/
def monitorsMap (configs : List MonitorConfig) : String → Option Nat :=
  registerAll configs 0 (fun _ => none)

/-- The state used by the recurring scheduled job of the i-th target:
the closure on main.ts lines 179-181 captures the `state` created in the
same iteration, i.e. the i-th fresh state. -/
def scheduledStateIndex (i : Nat) : Nat := i

/-- The state used by the one-time warm-up check of the i-th target
(main.ts lines 187-192): it is looked up from the monitors map by the
target's label, `monitors.get(cfg.label)`. -/
def warmupStateIndex (configs : List MonitorConfig) (i : Nat) : Option Nat :=
  match configs.get? i with
  | some cfg => monitorsMap configs cfg.label
  | none => none

end Startup

/-! ## Helper lemmas -/

/-- If a label does not occur in the registered configs, the registration
loop leaves its map entry unchanged. -/
theorem registerAll_not_mem : ∀ (configs : List MonitorConfig) (i : Nat)
    (m : String → Option Nat) (q : String),
    q ∉ configs.map MonitorConfig.label → registerAll configs i m q = m q
  | [], _, _, _, _ => rfl
  | c :: rest, i, m, q, hq => by
    have h1 : q ≠ c.label := fun e => hq (by simp [e])
    have h2 : q ∉ rest.map MonitorConfig.label := fun e => hq (by simp [e])
    show registerAll rest (i + 1) (mapSet m c.label i) q = m q
    rw [registerAll_not_mem rest (i + 1) _ q h2]
    simp [mapSet, h1]

/-- With pairwise-distinct labels, looking up the j-th config's label in
the map built by the registration loop returns the j-th state index. -/
theorem registerAll_lookup : ∀ (configs : List MonitorConfig) (i0 : Nat)
    (m : String → Option Nat) (j : Nat) (hj : j < configs.length),
    (configs.map MonitorConfig.label).Nodup →
    registerAll configs i0 m (configs.get ⟨j, hj⟩).label = some (i0 + j)
  | [], _, _, j, hj, _ => absurd hj (by simp)
  | c :: rest, i0, m, 0, _, hnd => by
    have hq : c.label ∉ rest.map MonitorConfig.label := by
      simp only [List.map_cons, List.nodup_cons] at hnd
      exact hnd.1
    show registerAll rest (i0 + 1) (mapSet m c.label i0) c.label = some (i0 + 0)
    rw [registerAll_not_mem rest (i0 + 1) _ _ hq]
    simp [mapSet]
  | c :: rest, i0, m, j + 1, hj, hnd => by
    have hnd' : (rest.map MonitorConfig.label).Nodup := by
      simp only [List.map_cons, List.nodup_cons] at hnd
      exact hnd.2
    have hj' : j < rest.length := by
      simpa using Nat.lt_of_succ_lt_succ (by simpa using hj)
    show registerAll rest (i0 + 1) (mapSet m c.label i0) (rest.get ⟨j, hj'⟩).label
        = some (i0 + (j + 1))
    rw [registerAll_lookup rest (i0 + 1) _ j hj' hnd']
    congr 1
    omega

/-- The new `lastUp` stored by a check cycle is the transition result,
for any outcome. -/
theorem checkOnceCore_state (cfg : MonitorConfig) (last : Option Bool) (o : CheckOutcome)
    (ts lts : String) (delivered : Bool) :
    (checkOnceCore cfg last o ts lts delivered).2 = (transitionStep last o.up).1 := by
  rcases last with _ | b
  · simp [checkOnceCore, transitionStep]
  · cases b <;> cases hu : o.up <;>
      simp [checkOnceCore, transitionStep, hu]

/-- The SES attempts of a check cycle are exactly the one the transition
requests, with the subject/body of the corresponding branch. -/
theorem checkOnceCore_ses (cfg : MonitorConfig) (last : Option Bool) (o : CheckOutcome)
    (ts lts : String) (delivered : Bool) :
    (checkOnceCore cfg last o ts lts delivered).1.filter isSes =
      (match (transitionStep last o.up).2 with
       | none => []
       | some NotifyKind.downAlert =>
           [Event.sesAttempt cfg.emails (alertSubject cfg lts) (alertBody cfg o)]
       | some NotifyKind.recovery =>
           [Event.sesAttempt cfg.emails (recoverySubject cfg lts) (recoveryBody cfg o)]) := by
  rcases last with _ | b
  · simp [checkOnceCore, transitionStep, isSes]
  · cases b <;> cases hu : o.up <;> cases delivered <;>
      simp [checkOnceCore, transitionStep, sendEmail, hu, isSes]

/-! ## Claim theorems -/

/-- C1: the state-transition logic of a check cycle realises the §4.1
table exactly: Unknown+true → Up / no notification, Unknown+false → Down /
no notification, Up+true → Up / none, Up+false → Down / DOWN alert,
Down+false → Down / none, Down+true → Up / RECOVERY notice; and the cycle
stores the transition's new status and attempts exactly the SES send the
table's action requests (in particular, none on the first observation). -/
theorem transition_table_exact :
    (transitionStep (lastUpOf .unknown) true = (lastUpOf .up, none) ∧
     transitionStep (lastUpOf .unknown) false = (lastUpOf .down, none) ∧
     transitionStep (lastUpOf .up) true = (lastUpOf .up, none) ∧
     transitionStep (lastUpOf .up) false = (lastUpOf .down, some .downAlert) ∧
     transitionStep (lastUpOf .down) false = (lastUpOf .down, none) ∧
     transitionStep (lastUpOf .down) true = (lastUpOf .up, some .recovery)) ∧
    ∀ (cfg : MonitorConfig) (last : Option Bool) (o : CheckOutcome) (ts lts : String)
      (delivered : Bool),
      (checkOnceCore cfg last o ts lts delivered).2 = (transitionStep last o.up).1 ∧
      (checkOnceCore cfg last o ts lts delivered).1.countP isSes =
        (if (transitionStep last o.up).2.isSome then 1 else 0) := by
  refine ⟨by decide, ?_⟩
  intro cfg last o ts lts delivered
  refine ⟨checkOnceCore_state cfg last o ts lts delivered, ?_⟩
  have h := checkOnceCore_ses cfg last o ts lts delivered
  rw [List.countP_eq_length_filter, h]
  rcases last with _ | b
  · simp [transitionStep]
  · cases b <;> cases hu : o.up <;> simp [transitionStep, hu]

/-- C2: `up` is `!(isConnectionFailure || (statusCode present ∧ ≥ 500))`;
hence a received response below 500 (including 4xx) is up, and a 5xx
response or a connection failure is down. -/
theorem up_rule (r : ProbeResult) (s duration : Nat) (m : String) :
    ((classify r duration).up
        = !((classify r duration).isConnectionFailure ||
            (match (classify r duration).statusCode with
             | some c => decide (500 ≤ c)
             | none => false))) ∧
    (s < 500 → (classify (.success s) duration).up = true
             ∧ (classify (.httpError s) duration).up = true) ∧
    (500 ≤ s → (classify (.success s) duration).up = false
             ∧ (classify (.httpError s) duration).up = false) ∧
    (classify (.connFailure m) duration).up = false := by
  refine ⟨?_, ?_, ?_, ?_⟩
  · cases r <;>
      simp [classify, isDowntimeCalc, statusCodeOf, errorMsgOf, isConnectionErrorOf]
  · intro h
    constructor <;>
      simp [classify, isDowntimeCalc, statusCodeOf, isConnectionErrorOf, Nat.not_le.mpr h]
  · intro h
    constructor <;>
      simp [classify, isDowntimeCalc, statusCodeOf, isConnectionErrorOf, h]
  · simp [classify, isDowntimeCalc, statusCodeOf, isConnectionErrorOf]

/-- Witness for C2 at a concrete 4xx response: a 404 yields `up = true`. -/
theorem up_rule_witness :
    (classify (.httpError 404) 3).up = true :=
  ((up_rule (.success 200) 404 3 "x").2.1 (by decide)).2

/-- C3 counterexample: 3 630 000 ms (60.5 minutes) does NOT fall back to
the midnight rule — its floored minute count is 60, which passes the
hour-alignment check, so `buildRule` yields an every-hour rule. -/
theorem buildRule_3630000_hourly :
    buildRule 3630000 = { second := .val 0, minute := .val 0, hour := .range 0 23 1 } ∧
    buildRule 3630000 ≠ { second := .val 0, minute := .val 0, hour := .val 0 } := by
  decide

/-- C3 (amended): any interval failing all three alignment checks of the
precedence — on the floored decomposition sec = interval/1000,
min = sec/60, hr = min/60 — maps to the once-per-day-at-midnight rule. -/
theorem buildRule_fallback_midnight (interval : Nat)
    (h1 : ¬ interval / 1000 < 60)
    (h2 : ¬ (interval / 1000 % 60 = 0 ∧ interval / 1000 / 60 < 60))
    (h3 : ¬ (interval / 1000 / 60 % 60 = 0 ∧ interval / 1000 / 60 / 60 < 24)) :
    buildRule interval = { second := .val 0, minute := .val 0, hour := .val 0 } := by
  simp only [buildRule]
  rw [if_neg h1, if_neg h2, if_neg h3]

/-- Witness for the amended C3: 65 000 ms fails all three checks and
falls back to midnight. -/
theorem buildRule_fallback_midnight_witness :
    buildRule 65000 = { second := .val 0, minute := .val 0, hour := .val 0 } :=
  buildRule_fallback_midnight 65000 (by decide) (by decide) (by decide)

/-- C4: every interval under 60 seconds yields a seconds rule stepping
every N = interval/1000 seconds within the minute; buildRule 5000 fires
at seconds 0,5,...,55 of every minute; buildRule 120000 fires every
2 minutes at second 0 of every hour. -/
theorem buildRule_aligned (interval : Nat) :
    (interval < 60000 → buildRule interval =
      { second := .range 0 59 (interval / 1000), minute := .unset, hour := .unset }) ∧
    buildRule 5000 = { second := .range 0 59 5, minute := .unset, hour := .unset } ∧
    (∀ h m s : Nat, ruleFiresAt (buildRule 5000) h m s = true ↔ s ≤ 59 ∧ s % 5 = 0) ∧
    buildRule 120000 = { second := .val 0, minute := .range 0 59 2, hour := .unset } ∧
    (∀ h m s : Nat, ruleFiresAt (buildRule 120000) h m s = true
        ↔ m ≤ 59 ∧ m % 2 = 0 ∧ s = 0) := by
  refine ⟨?_, by decide, ?_, by decide, ?_⟩
  · intro h
    have h' : interval / 1000 < 60 := by omega
    simp only [buildRule]
    rw [if_pos h']
  · intro h m s
    have e : buildRule 5000 = { second := .range 0 59 5, minute := .unset, hour := .unset } := by
      decide
    rw [e]
    simp [ruleFiresAt, fieldMatches]
  · intro h m s
    have e : buildRule 120000 =
        { second := .val 0, minute := .range 0 59 2, hour := .unset } := by
      decide
    rw [e]
    simp [ruleFiresAt, fieldMatches]
    omega

/-- Witness for C4: 5000 ms is under 60 seconds and yields the
every-5-seconds rule. -/
theorem buildRule_aligned_witness :
    buildRule 5000 = { second := .range 0 59 5, minute := .unset, hour := .unset } :=
  (buildRule_aligned 5000).1 (by decide)

/-- C6: a connection-level probe failure is absorbed by the cycle: the
outcome has `isConnectionFailure = true`, the exception's message as
`errorMessage`, no `statusCode`, and `up = false`; the cycle still writes
its one log record and still applies (and stores) the state transition. -/
theorem connFailure_absorbed (cfg : MonitorConfig) (last : Option Bool) (m : String)
    (duration : Nat) (ts lts : String) (delivered : Bool) :
    (classify (.connFailure m) duration).isConnectionFailure = true ∧
    (classify (.connFailure m) duration).errorMessage = some m ∧
    (classify (.connFailure m) duration).statusCode = none ∧
    (classify (.connFailure m) duration).up = false ∧
    (checkOnce cfg last (.connFailure m) duration ts lts delivered).1.countP isLogAppend = 1 ∧
    (checkOnce cfg last (.connFailure m) duration ts lts delivered).2
      = (transitionStep last false).1 := by
  refine ⟨by simp [classify, isDowntimeCalc, statusCodeOf, errorMsgOf, isConnectionErrorOf],
          by simp [classify, errorMsgOf],
          by simp [classify, statusCodeOf],
          by simp [classify, isDowntimeCalc, statusCodeOf, isConnectionErrorOf],
          ?_, ?_⟩
  · rcases last with _ | b
    · simp [checkOnce, checkOnceCore, isLogAppend]
    · cases b <;> cases delivered <;>
        simp [checkOnce, checkOnceCore, classify, isDowntimeCalc, statusCodeOf,
              isConnectionErrorOf, errorMsgOf, sendEmail, isLogAppend]
  · rw [checkOnce, checkOnceCore_state]
    simp [classify, isDowntimeCalc, statusCodeOf, isConnectionErrorOf]

/-- C7: when the transition requests a notification, a delivery failure
is swallowed inside `sendEmail`: a diagnostic line is written, the cycle
still performs its single state write, and the stored status is the same
as when delivery succeeds. -/
theorem notifierFailure_harmless (cfg : MonitorConfig) (last : Option Bool)
    (r : ProbeResult) (duration : Nat) (ts lts : String)
    (hnotify : (transitionStep last (classify r duration).up).2.isSome = true) :
    (checkOnce cfg last r duration ts lts false).2
      = (checkOnce cfg last r duration ts lts true).2 ∧
    (checkOnce cfg last r duration ts lts false).2 = some (classify r duration).up ∧
    0 < (checkOnce cfg last r duration ts lts false).1.countP isConsoleError ∧
    (checkOnce cfg last r duration ts lts false).1.countP isStateWrite = 1 := by
  refine ⟨?_, ?_, ?_, ?_⟩
  · rw [checkOnce, checkOnce, checkOnceCore_state, checkOnceCore_state]
  · rw [checkOnce, checkOnceCore_state]
    rcases last with _ | b
    · simp [transitionStep]
    · cases b <;> cases hu : (classify r duration).up <;> simp [transitionStep, hu]
  · rcases last with _ | b
    · simp [transitionStep] at hnotify
    · cases b <;> cases hu : (classify r duration).up <;> rw [hu] at hnotify
      · simp [transitionStep] at hnotify
      · simp [checkOnce, checkOnceCore, hu, sendEmail, isConsoleError,
              List.countP_cons, List.countP_nil, List.countP_append]
      · simp [checkOnce, checkOnceCore, hu, sendEmail, isConsoleError,
              List.countP_cons, List.countP_nil, List.countP_append]
      · simp [transitionStep] at hnotify
  · rcases last with _ | b
    · simp [checkOnce, checkOnceCore, isStateWrite, List.countP_cons, List.countP_nil]
    · cases b <;> cases hu : (classify r duration).up <;>
        simp [checkOnce, checkOnceCore, hu, sendEmail, isStateWrite,
              List.countP_cons, List.countP_nil, List.countP_append]

/-- Witness for C7: a previously-Up target whose probe hits a connection
failure requires a DOWN alert; with SES delivery failing, the stored
status is the same as with delivery succeeding. -/
theorem notifierFailure_harmless_witness :
    (checkOnce ⟨"api", "u", ["e"], 5000⟩ (some true) (.connFailure "boom") 3 "T" "L" false).2
      = (checkOnce ⟨"api", "u", ["e"], 5000⟩ (some true) (.connFailure "boom") 3 "T" "L" true).2 :=
  (notifierFailure_harmless ⟨"api", "u", ["e"], 5000⟩ (some true) (.connFailure "boom")
    3 "T" "L" (by decide)).1

/-- C8: every check cycle runs exactly one probe and writes exactly one
log record (with the timestamp, url, statusCode, error, responseTimeMs
and up fields of `mkLogRecord`); in pipeline order the probe comes first,
then the log append, then any SES attempt, and last the single state
write storing the outcome's `up`. -/
theorem onTick_sequence (cfg : MonitorConfig) (last : Option Bool) (r : ProbeResult)
    (duration : Nat) (ts lts : String) (delivered : Bool) :
    (checkOnce cfg last r duration ts lts delivered).1.countP isProbe = 1 ∧
    (checkOnce cfg last r duration ts lts delivered).1.countP isLogAppend = 1 ∧
    (checkOnce cfg last r duration ts lts delivered).1.filter isCore =
      Event.probe cfg.url ::
        Event.logAppend cfg.label (mkLogRecord cfg ts (classify r duration)) ::
        ((checkOnce cfg last r duration ts lts delivered).1.filter isSes
          ++ [Event.stateWrite (classify r duration).up]) := by
  refine ⟨?_, ?_, ?_⟩ <;>
    · rcases last with _ | b
      · simp [checkOnce, checkOnceCore, isProbe, isLogAppend, isSes, isStateWrite, isCore,
              List.countP_cons, List.countP_nil]
      · cases b <;> cases hu : (classify r duration).up <;> cases delivered <;>
          simp [checkOnce, checkOnceCore, hu, sendEmail, isProbe, isLogAppend, isSes,
                isStateWrite, isConsoleError, isCore,
                List.countP_cons, List.countP_nil, List.countP_append]

/-- C9 counterexample: two targets configured with the same label "a".
The warm-up check looks states up by label from the monitors map, where
the second registration overwrote the first: the warm-up check of target
0 runs on state 1 — the state owned by target 1 — so the two targets
share a state instance, refuting the claim for arbitrary target lists. -/
theorem warmup_shared_state_counterexample :
    warmupStateIndex [⟨"a", "u1", ["e"], 5000⟩, ⟨"a", "u2", ["e"], 7000⟩] 0 = some 1 ∧
    warmupStateIndex [⟨"a", "u1", ["e"], 5000⟩, ⟨"a", "u2", ["e"], 7000⟩] 1 = some 1 ∧
    warmupStateIndex [⟨"a", "u1", ["e"], 5000⟩, ⟨"a", "u2", ["e"], 7000⟩] 0
      ≠ some (scheduledStateIndex 0) := by
  refine ⟨by rfl, by rfl, by decide⟩

/-- C9 (amended): provided the configured labels are pairwise distinct,
each started target's warm-up check resolves to the very state created
for that target (the one its recurring job's closure captured), so every
check cycle runs on the target's own exclusively-owned state and no two
targets share one. -/
theorem startup_state_isolation (configs : List MonitorConfig)
    (hnd : (configs.map MonitorConfig.label).Nodup)
    (i : Nat) (hi : i < configs.length) :
    warmupStateIndex configs i = some (scheduledStateIndex i) ∧
    ∀ j : Nat, i ≠ j → scheduledStateIndex i ≠ scheduledStateIndex j := by
  constructor
  · have hget : configs.get? i = some (configs.get ⟨i, hi⟩) := List.get?_eq_get hi
    rw [warmupStateIndex, hget]
    show monitorsMap configs (configs.get ⟨i, hi⟩).label = some (scheduledStateIndex i)
    rw [monitorsMap, registerAll_lookup configs 0 _ i hi hnd]
    simp [scheduledStateIndex]
  · intro j hij
    simpa [scheduledStateIndex] using hij

/-- Witness for the amended C9: with distinct labels "a", "b", target 1's
warm-up check resolves to state 1. -/
theorem startup_state_isolation_witness :
    warmupStateIndex [⟨"a", "u1", ["e"], 5000⟩, ⟨"b", "u2", ["e"], 7000⟩] 1
      = some (scheduledStateIndex 1) :=
  (startup_state_isolation [⟨"a", "u1", ["e"], 5000⟩, ⟨"b", "u2", ["e"], 7000⟩]
    (by decide) 1 (by decide)).1

/-- C10: in every constructed outcome, `statusCode` is absent exactly on
a connection failure and `errorMessage` is present exactly on a
connection failure; hence every up outcome, and every down outcome that
came from an HTTP response, carries a numeric status code. -/
theorem outcome_field_invariants (r : ProbeResult) (duration : Nat) :
    ((classify r duration).statusCode = none
        ↔ (classify r duration).isConnectionFailure = true) ∧
    ((classify r duration).errorMessage ≠ none
        ↔ (classify r duration).isConnectionFailure = true) ∧
    ((classify r duration).up = true → (classify r duration).statusCode.isSome = true) ∧
    ((classify r duration).up = false → (classify r duration).isConnectionFailure = false →
        (classify r duration).statusCode.isSome = true) := by
  cases r <;>
    simp [classify, isDowntimeCalc, statusCodeOf, errorMsgOf, isConnectionErrorOf]

/-- Witness for C10 at a connection failure: the outcome has no status
code, and its connection-failure flag justifies it via the invariant. -/
theorem outcome_field_invariants_witness :
    (classify (.connFailure "t") 3).statusCode = none :=
  ((outcome_field_invariants (.connFailure "t") 3).1).mpr (by decide)

end XMonitor
